import Mathlib

/-!
Shallow embedding of the hotel-dashboard client (React components `Listing`
and `RoomDetails`, file `part_003`), together with theorems settling the
spec claims about it.

Modelling conventions:
- JS `number` is `Int`; `string` is `String`; `T | null` and optional
  fields (`?:`) are `Option T`; a `File` is represented by its name.
- JS truthiness tests that the code performs are modelled explicitly:
  `jsTruthyStr` for strings (`""` is falsy), `jsTruthyNum` for numbers
  (`0` is falsy), `Option.isSome`-style checks for null/undefined.
- A request issued through `requestApi` is a `Request` value; toast
  notifications and `navigate` calls are collected in an `Effects` record.
- Each async handler is split into the synchronous submission part
  (what request it issues, from the component state) and the response
  part (`.then`/`.catch`/`.finally`), a function of the settled outcome.
-/

/-- HTTP method of an axios request. -/
inductive Method
  | GET
  | POST
  | PUT
  | DELETE
deriving DecidableEq, Repr

/-- A value appended to a `FormData`: either a string or a file
(modelled by its name). `formData.append("image", imageFile || "")`
appends the empty string when no file is selected. -/
inductive FormValue
  | str (s : String)
  | file (name : String)
deriving DecidableEq, Repr

/-- A request issued through `requestApi`. The body is the ordered list of
`FormData` entries (empty for requests with no body). -/
structure Request where
  method : Method
  url : String
  body : List (String × FormValue)
deriving DecidableEq, Repr

/-- Kind of a react-toastify notification. -/
inductive ToastKind
  | success
  | error
  | info
deriving DecidableEq, Repr

/-- One user-visible toast notification. -/
structure Toast where
  kind : ToastKind
  msg : String
deriving DecidableEq, Repr

/-- Observable effects of running a handler branch: requests issued,
toasts raised, and navigation performed (`navigate(url)`). -/
structure Effects where
  requests : List Request
  toasts : List Toast
  navigateTo : Option String
deriving DecidableEq, Repr

/-- Effects of a branch that does nothing observable. -/
def noEffects : Effects := { requests := [], toasts := [], navigateTo := none }

/-- JS truthiness of an optional string (`undefined`, `null` and `""` are
falsy). Used for `if (createdRoom.id)` / `if (room.id)`. -/
def jsTruthyStr : Option String → Bool
  | none => false
  | some s => !s.isEmpty

/-- JS truthiness of an optional number (`null` and `0` are falsy).
Used for `if (prevPage)` / `if (nextPage)`. -/
def jsTruthyNum : Option Int → Bool
  | none => false
  | some n => n != 0

/-- JS `a || b` for an optional string `a`: yields `b` when `a` is
null/undefined or empty (both falsy). Used for `room.description || ""`
and `roomData.pdf_path || ""`. -/
def jsOrStr (a : Option String) (b : String) : String :=
  match a with
  | none => b
  | some s => if s.isEmpty then b else s

/-- JS `a || b` for an optional array `a`: an array value is always
truthy, so only null/undefined falls through to `b`. Used for
`roomData.facilities_list || []`. -/
def jsOrList (a : Option (List String)) (b : List String) : List String :=
  match a with
  | none => b
  | some l => l

/-- JS template interpolation of a possibly-undefined id, as in
backtick-quoted `/rooms/${createdRoom.id}`: `undefined` prints as the
literal string. -/
def jsTemplateId : Option String → String
  | none => "undefined"
  | some s => s

/-- Minimal model of `JSON.stringify` on an array of strings (escaping
backslash and double quote). -/
def jsonEscapeChar (c : Char) : String :=
  if c = '\\' then "\\\\"
  else if c = '\"' then "\\\""
  else String.singleton c

/-- Serialize one string as a JSON string literal. -/
def jsonString (s : String) : String :=
  "\"" ++ String.join (s.data.map jsonEscapeChar) ++ "\""

/-- `JSON.stringify(facilities)` for the facilities array. -/
def jsonStringifyList (l : List String) : String :=
  "[" ++ String.intercalate "," (l.map jsonString) ++ "]"

/-! ## Listing component (list view) -/

/-- Wire shape of one item of the list response (`RoomResponse` in the
`Listing` component). -/
structure RoomWire where
  id : String
  title : String
  description : String
  facilities_count : Int
  created_at_str : String
  updated_at_str : String
deriving DecidableEq, Repr

/-- Client-side list row model (`Room` in the `Listing` component). -/
structure RoomItem where
  id : String
  title : String
  description : String
  facilitiesCount : Int
  createdAt : String
  updatedAt : String
deriving DecidableEq, Repr

/-- The per-item wire-to-client translation performed inside
`fetchRooms`'s `.then` callback. -/
def translateListItem (room : RoomWire) : RoomItem :=
  { id := room.id
    title := room.title
    description := room.description
    facilitiesCount := room.facilities_count
    createdAt := room.created_at_str
    updatedAt := room.updated_at_str }

/-- The `data` field of the list response body: either a JSON array of
room objects or any non-array value (the code tests `Array.isArray`). -/
inductive ListData
  | arr (items : List RoomWire)
  | notArray
deriving DecidableEq, Repr

/-- Body of a successful GET /rooms response (`response.data`). -/
structure ListResponse where
  data : ListData
  next_page : Option Int
  prev_page : Option Int
  page_size : Int
deriving DecidableEq, Repr

/-- State of the `Listing` component relevant to fetching and paging. -/
structure ListingState where
  rooms : List RoomItem
  pageSize : Int
  nextPage : Option Int
  prevPage : Option Int
deriving DecidableEq, Repr

/-- Error shape the client inspects: `error.response` with its `status`
and, when it is a string, `error.response.data.detail`. Absent
`response` models a network-level failure. -/
structure ErrResponse where
  status : Int
  detail : Option String
deriving DecidableEq, Repr

/-- An axios rejection value. -/
structure AxiosError where
  response : Option ErrResponse
deriving DecidableEq, Repr

/-- `handlePageChange`: builds the page-change URL and issues the GET
request (via `fetchRooms`). -/
def handlePageChange (pageNum : Int) (pageSize : Int) : Request :=
  { method := .GET
    url := "/rooms?page=" ++ toString pageNum ++ "&page_size=" ++ toString pageSize
    body := [] }

/-- Clicking the Previous control: `if (prevPage) handlePageChange(prevPage)`.
Returns the issued request, if any. -/
def clickPrevious (s : ListingState) : Option Request :=
  if jsTruthyNum s.prevPage then some (handlePageChange (s.prevPage.getD 0) s.pageSize)
  else none

/-- Clicking the Next control: `if (nextPage) handlePageChange(nextPage)`.
Returns the issued request, if any. -/
def clickNext (s : ListingState) : Option Request :=
  if jsTruthyNum s.nextPage then some (handlePageChange (s.nextPage.getD 0) s.pageSize)
  else none

/-- `fetchRooms`' settled-outcome handling: on success the rows are the
translation of `response.data.data` when it is an array and `[]`
otherwise, and the paging hints are taken from the response; on failure
a single generic error toast is raised and the state is untouched. -/
def fetchRooms_onOutcome (s : ListingState) (outcome : Except AxiosError ListResponse) :
    Effects × ListingState :=
  match outcome with
  | .ok response =>
      (noEffects,
       { rooms :=
           match response.data with
           | .arr items => items.map translateListItem
           | .notArray => []
         nextPage := response.next_page
         prevPage := response.prev_page
         pageSize := response.page_size })
  | .error _ =>
      ({ requests := []
         toasts := [{ kind := .error, msg := "An error occurred while fetching rooms." }]
         navigateTo := none }, s)

/-! ## RoomDetails component (detail/edit view) -/

/-- Wire shape of a full room response (`RoomResponse` in
`types/room.ts`; optional fields are `Option`). -/
structure RoomResponse where
  id : Option String
  title : String
  description : String
  image_path : Option String
  pdf_path : Option String
  facilities_count : Option Int
  facilities_list : Option (List String)
  created_at_str : String
  updated_at_str : String
deriving DecidableEq, Repr

/-- Client-side room model (`Room` in `types/room.ts`). -/
structure Room where
  id : Option String
  title : String
  description : String
  imagePath : Option String
  pdfPath : Option String
  facilities : Option (List String)
  facilitiesCount : Option String
  createdAt : String
  updatedAt : String
deriving DecidableEq, Repr

/-- The `RoomDetails` component state touched by the handlers: the
`room` draft, the `facilities` list, the `loading` flag, the `pdfPath`
string state, and the selected image file (by name). -/
structure DetailState where
  room : Option Room
  facilities : List String
  loading : Bool
  pdfPath : String
  imageFile : Option String
deriving DecidableEq, Repr

/-- `updateRoomState(roomData)`: builds the new `room` object field by
field (the object literal carries no `pdfPath`/`facilities`/
`facilitiesCount` keys), sets `facilities` to
`roomData.facilities_list || []` and `pdfPath` to
`roomData.pdf_path || ""`. Returns the updated component state. -/
def updateRoomState (s : DetailState) (roomData : RoomResponse) : DetailState :=
  { s with
    room := some
      { id := roomData.id
        title := roomData.title
        description := roomData.description
        imagePath := roomData.image_path
        pdfPath := none
        facilities := none
        facilitiesCount := none
        createdAt := roomData.created_at_str
        updatedAt := roomData.updated_at_str }
    facilities := jsOrList roomData.facilities_list []
    pdfPath := jsOrStr roomData.pdf_path "" }

/-- `handleAddFacility`: appends one empty facility row. -/
def handleAddFacility (prev : List String) : List String :=
  prev ++ [""]

/-- `Array.prototype.filter` with the index argument, as used in
`prev.filter((_, i) => i !== index)`: keeps the elements whose running
index (starting at `n`) differs from `index`. -/
def filterIndexNe (index : Nat) : List String → Nat → List String
  | [], _ => []
  | x :: xs, n =>
      if n ≠ index then x :: filterIndexNe index xs (n + 1)
      else filterIndexNe index xs (n + 1)

/-- `handleFacilityRemoval(index)`: filters out position `index` only
when the list has more than one element, otherwise returns it unchanged. -/
def handleFacilityRemoval (index : Nat) (prev : List String) : List String :=
  if prev.length > 1 then filterIndexNe index prev 0 else prev

/-- `fetchRoom`'s settled-outcome handling: success routes the body
through `updateRoomState`; a 404 failure raises a not-found toast and
navigates to "/"; any other failure raises the generic toast and stays.
`finally` clears `loading` in all cases. -/
def fetchRoom_onOutcome (s : DetailState) (outcome : Except AxiosError RoomResponse) :
    Effects × DetailState :=
  match outcome with
  | .ok response =>
      (noEffects, { updateRoomState s response with loading := false })
  | .error e =>
      match e.response with
      | some r =>
          if r.status = 404 then
            ({ requests := []
               toasts := [{ kind := .error, msg := "Room not found." }]
               navigateTo := some "/" }, { s with loading := false })
          else
            ({ requests := []
               toasts := [{ kind := .error, msg := "An error occurred while fetching rooms." }]
               navigateTo := none }, { s with loading := false })
      | none =>
          ({ requests := []
             toasts := [{ kind := .error, msg := "An error occurred while fetching rooms." }]
             navigateTo := none }, { s with loading := false })

/-- The `FormData` built by `handleCreateRoom`: title, description
(`|| ""`), `JSON.stringify(facilities)`, and `image` — the selected file
when present, otherwise the empty string (`imageFile || ""`). -/
def createFormData (room : Room) (facilities : List String) (imageFile : Option String) :
    List (String × FormValue) :=
  [("title", .str room.title),
   ("description", .str (jsOrStr (some room.description) "")),
   ("facilities", .str (jsonStringifyList facilities)),
   ("image", match imageFile with
             | some f => .file f
             | none => .str "")]

/-- Synchronous part of `handleCreateRoom`: bail out with a toast when
`room` is null, otherwise POST the multipart body to /rooms. -/
def handleCreateRoom_submit (s : DetailState) : Option Request :=
  match s.room with
  | none => none
  | some room =>
      some { method := .POST
             url := "/rooms"
             body := createFormData room s.facilities s.imageFile }

/-- The error message `handleCreateRoom`'s catch computes:
`error.response.data.detail` when it is a string, else the generic
creation message. -/
def createErrMsg (e : AxiosError) : String :=
  match e.response with
  | some r => match r.detail with
              | some d => d
              | none => "An error occurred while creating rooms."
  | none => "An error occurred while creating rooms."

/-- The single toast `handleCreateRoom`'s catch raises: `errMsg` on 400,
the fixed invalid-data message on 422, `errMsg` otherwise. -/
def createErrToast (e : AxiosError) : Toast :=
  match e.response with
  | some r =>
      if r.status = 400 then { kind := .error, msg := createErrMsg e }
      else if r.status = 422 then
        { kind := .error
          msg := "Invalid data provided. Please check your input and ensure an image is also provided." }
      else { kind := .error, msg := createErrMsg e }
  | none => { kind := .error, msg := createErrMsg e }

/-- `handlePDFGeneration`'s synchronous part (after `toast.dismiss()`):
bail out with a toast when the captured `room` is null, otherwise POST
to /rooms/{id}/pdf. -/
def handlePDFGeneration_start (room : Option Room) (id : String) : Effects :=
  match room with
  | none =>
      { requests := []
        toasts := [{ kind := .error, msg := "Room data is not available." }]
        navigateTo := none }
  | some _ =>
      { requests := [{ method := .POST, url := "/rooms/" ++ id ++ "/pdf", body := [] }]
        toasts := []
        navigateTo := none }

/-- `handleCreateRoom`'s settled-outcome handling. `room` is the
non-null draft captured by the closure when the request was submitted.
On success: success and info toasts, `updateRoomState`, a follow-up PDF
request iff `createdRoom.id` is truthy, then navigation to the detail
route. On failure: exactly the one toast of `createErrToast`, state
untouched. `finally` clears `loading`. -/
def handleCreateRoom_onOutcome (room : Room) (s : DetailState)
    (outcome : Except AxiosError RoomResponse) : Effects × DetailState :=
  match outcome with
  | .ok createdRoom =>
      let pdfEff :=
        if jsTruthyStr createdRoom.id then
          handlePDFGeneration_start (some room) (createdRoom.id.getD "")
        else noEffects
      ({ requests := pdfEff.requests
         toasts := [{ kind := .success, msg := "Room created successfully." },
                    { kind := .info, msg := "Pdf generation in progress" }] ++ pdfEff.toasts
         navigateTo := some ("/rooms/" ++ jsTemplateId createdRoom.id) },
       { updateRoomState s createdRoom with loading := false })
  | .error e =>
      ({ requests := [], toasts := [createErrToast e], navigateTo := none },
       { s with loading := false })

/-- The `FormData` built by `handleUpdateRoom`: exactly title,
description (`|| ""`) and `JSON.stringify(facilities)` — no image entry. -/
def updateFormData (room : Room) (facilities : List String) :
    List (String × FormValue) :=
  [("title", .str room.title),
   ("description", .str (jsOrStr (some room.description) "")),
   ("facilities", .str (jsonStringifyList facilities))]

/-- Synchronous part of `handleUpdateRoom`: bail out with a toast when
`room` is null, otherwise PUT the multipart body to /rooms/{room.id}. -/
def handleUpdateRoom_submit (s : DetailState) : Option Request :=
  match s.room with
  | none => none
  | some room =>
      some { method := .PUT
             url := "/rooms/" ++ jsTemplateId room.id
             body := updateFormData room s.facilities }

/-- The error message `handleUpdateRoom`'s catch computes. -/
def updateErrMsg (e : AxiosError) : String :=
  match e.response with
  | some r => match r.detail with
              | some d => d
              | none => "An error occurred while updating rooms."
  | none => "An error occurred while updating rooms."

/-- `handleUpdateRoom`'s settled-outcome handling. `room` is the
non-null draft captured by the closure. On success: success and info
toasts, `updateRoomState`, a follow-up PDF request iff the captured
`room.id` is truthy. On failure: one error toast (the 400 branch and the
else branch raise the same `errMsg`), state untouched. -/
def handleUpdateRoom_onOutcome (room : Room) (s : DetailState)
    (outcome : Except AxiosError RoomResponse) : Effects × DetailState :=
  match outcome with
  | .ok updatedRoom =>
      let pdfEff :=
        if jsTruthyStr room.id then
          handlePDFGeneration_start (some room) (room.id.getD "")
        else noEffects
      ({ requests := pdfEff.requests
         toasts := [{ kind := .success, msg := "Room updated successfully." },
                    { kind := .info, msg := "Pdf generation in progress" }] ++ pdfEff.toasts
         navigateTo := none },
       { updateRoomState s updatedRoom with loading := false })
  | .error e =>
      ({ requests := [], toasts := [{ kind := .error, msg := updateErrMsg e }], navigateTo := none },
       { s with loading := false })

/-- `handlePDFGeneration`'s settled-outcome handling: success routes the
body through `updateRoomState` and raises the success toast; failure
raises the one generic toast. -/
def handlePDFGeneration_onOutcome (s : DetailState)
    (outcome : Except AxiosError RoomResponse) : Effects × DetailState :=
  match outcome with
  | .ok updatedRoom =>
      ({ requests := []
         toasts := [{ kind := .success, msg := "PDF generated successfully." }]
         navigateTo := none },
       { updateRoomState s updatedRoom with loading := false })
  | .error _ =>
      ({ requests := []
         toasts := [{ kind := .error, msg := "An error occurred while generating the PDF." }]
         navigateTo := none },
       { s with loading := false })

/-- The error message `handleDeleteRoom`'s catch computes. -/
def deleteErrMsg (e : AxiosError) : String :=
  match e.response with
  | some r => match r.detail with
              | some d => d
              | none => "An error occurred while deleting the room."
  | none => "An error occurred while deleting the room."

/-- `handleDeleteRoom`'s settled-outcome handling: success toasts and
navigates to "/"; failure raises one error toast (the 400 branch and the
else branch raise the same `errMsg`). -/
def handleDeleteRoom_onOutcome (s : DetailState)
    (outcome : Except AxiosError Unit) : Effects × DetailState :=
  match outcome with
  | .ok _ =>
      ({ requests := []
         toasts := [{ kind := .success, msg := "Room deleted successfully." }]
         navigateTo := some "/" }, { s with loading := false })
  | .error e =>
      ({ requests := [], toasts := [{ kind := .error, msg := deleteErrMsg e }], navigateTo := none },
       { s with loading := false })

/-! ## Sample values used by witnesses and counterexamples -/

/-- The `emptyRoom` literal of the component (used for the create flow). -/
def emptyRoom : Room :=
  { id := none, title := "", description := "", imagePath := some "",
    pdfPath := none, facilities := none, facilitiesCount := none,
    createdAt := "", updatedAt := "" }

/-- A filled-in draft on the create form, no image selected yet. -/
def draftRoom : Room :=
  { id := none, title := "Deluxe Suite", description := "Sea view",
    imagePath := some "", pdfPath := none, facilities := none,
    facilitiesCount := none, createdAt := "", updatedAt := "" }

/-- Component state on the create form with no image file selected. -/
def noImageState : DetailState :=
  { room := some draftRoom, facilities := ["WiFi"], loading := false,
    pdfPath := "", imageFile := none }

/-- A saved room as the client holds it on the edit form. -/
def savedRoom : Room :=
  { id := some "7", title := "Deluxe Suite", description := "Sea view",
    imagePath := some "/img/7.jpg", pdfPath := none, facilities := none,
    facilitiesCount := none, createdAt := "2024-01-01", updatedAt := "2024-01-02" }

/-- Component state on the edit form of room "7". -/
def editState : DetailState :=
  { room := some savedRoom, facilities := ["WiFi", "Mini Bar"], loading := false,
    pdfPath := "", imageFile := none }

/-- A full wire response for room "7". -/
def sampleResponse : RoomResponse :=
  { id := some "7", title := "Deluxe Suite", description := "Sea view",
    image_path := some "/img/7.jpg", pdf_path := none,
    facilities_count := some 2, facilities_list := some ["WiFi", "Mini Bar"],
    created_at_str := "2024-01-01", updated_at_str := "2024-01-02" }

/-- One wire list item. -/
def sampleWire : RoomWire :=
  { id := "7", title := "Deluxe Suite", description := "Sea view",
    facilities_count := 2, created_at_str := "2024-01-01",
    updated_at_str := "2024-01-02" }

/-! ## Claims -/

/-- Claim C2: a page-change request is issued only when the
corresponding server hint is non-null — Next only when `next_page` is
present, Previous only when `prev_page` is present — and the page
parameter of the issued request is exactly the hint value; the controls
request no other page value. -/
theorem claim_C2 (s : ListingState) (req : Request) :
    (clickNext s = some req →
      ∃ p, s.nextPage = some p ∧ req = handlePageChange p s.pageSize ∧
        req.url = "/rooms?page=" ++ toString p ++ "&page_size=" ++ toString s.pageSize) ∧
    (clickPrevious s = some req →
      ∃ p, s.prevPage = some p ∧ req = handlePageChange p s.pageSize ∧
        req.url = "/rooms?page=" ++ toString p ++ "&page_size=" ++ toString s.pageSize) := by
  constructor
  · intro h
    cases hn : s.nextPage with
    | none => simp [clickNext, jsTruthyNum, hn] at h
    | some p =>
        by_cases hp : p = 0
        · simp [clickNext, jsTruthyNum, hn, hp] at h
        · simp [clickNext, jsTruthyNum, hn, hp] at h
          exact ⟨p, rfl, h.symm, by rw [← h]; rfl⟩
  · intro h
    cases hn : s.prevPage with
    | none => simp [clickPrevious, jsTruthyNum, hn] at h
    | some p =>
        by_cases hp : p = 0
        · simp [clickPrevious, jsTruthyNum, hn, hp] at h
        · simp [clickPrevious, jsTruthyNum, hn, hp] at h
          exact ⟨p, rfl, h.symm, by rw [← h]; rfl⟩

/-- Witness for claim C2 at a concrete listing state with both hints
present. -/
theorem claim_C2_witness :
    (∃ p, (⟨[], 20, some 3, some 1⟩ : ListingState).nextPage = some p ∧
      handlePageChange 3 20 = handlePageChange p 20 ∧
      (handlePageChange 3 20).url = "/rooms?page=" ++ toString p ++ "&page_size=" ++ toString (20 : Int)) ∧
    (∃ p, (⟨[], 20, some 3, some 1⟩ : ListingState).prevPage = some p ∧
      handlePageChange 1 20 = handlePageChange p 20 ∧
      (handlePageChange 1 20).url = "/rooms?page=" ++ toString p ++ "&page_size=" ++ toString (20 : Int)) :=
  ⟨(claim_C2 ⟨[], 20, some 3, some 1⟩ (handlePageChange 3 20)).1 (by decide),
   (claim_C2 ⟨[], 20, some 3, some 1⟩ (handlePageChange 1 20)).2 (by decide)⟩

/-- Claim C3: the wire-to-client translation copies id, title and
description, maps `facilities_count` to `facilitiesCount`,
`created_at_str` to `createdAt`, `updated_at_str` to `updatedAt`; in the
detail view `imagePath` equals `image_path`, `facilities` equals
`facilities_list` (empty list when absent) and `pdfPath` equals
`pdf_path` (empty string when absent). -/
theorem claim_C3 :
    (∀ w : RoomWire,
      (translateListItem w).id = w.id ∧
      (translateListItem w).title = w.title ∧
      (translateListItem w).description = w.description ∧
      (translateListItem w).facilitiesCount = w.facilities_count ∧
      (translateListItem w).createdAt = w.created_at_str ∧
      (translateListItem w).updatedAt = w.updated_at_str) ∧
    (∀ (s : DetailState) (r : RoomResponse),
      ∃ room, (updateRoomState s r).room = some room ∧
        room.id = r.id ∧ room.title = r.title ∧
        room.description = r.description ∧
        room.imagePath = r.image_path ∧
        room.createdAt = r.created_at_str ∧
        room.updatedAt = r.updated_at_str ∧
        (∀ l, r.facilities_list = some l → (updateRoomState s r).facilities = l) ∧
        (r.facilities_list = none → (updateRoomState s r).facilities = []) ∧
        (∀ p, r.pdf_path = some p → (updateRoomState s r).pdfPath = p) ∧
        (r.pdf_path = none → (updateRoomState s r).pdfPath = "")) := by
  constructor
  · intro w
    exact ⟨rfl, rfl, rfl, rfl, rfl, rfl⟩
  · intro s r
    refine ⟨_, rfl, rfl, rfl, rfl, rfl, rfl, rfl, ?_, ?_, ?_, ?_⟩
    · intro l hl
      simp [updateRoomState, jsOrList, hl]
    · intro hl
      simp [updateRoomState, jsOrList, hl]
    · intro p hp
      by_cases hpe : p = ""
      · simp [updateRoomState, jsOrStr, hp, hpe]
      · have hne : p.isEmpty = false := by
          cases hb : p.isEmpty
          · rfl
          · exact absurd ((String.isEmpty_iff p).mp hb) hpe
        simp [updateRoomState, jsOrStr, hp, hne]
    · intro hp
      simp [updateRoomState, jsOrStr, hp]

/-- Witness for claim C3 at a concrete wire item and a concrete detail
response with facilities present and pdf path absent. -/
theorem claim_C3_witness :
    (translateListItem sampleWire).facilitiesCount = 2 ∧
    (updateRoomState editState sampleResponse).facilities = ["WiFi", "Mini Bar"] ∧
    (updateRoomState editState sampleResponse).pdfPath = "" := by
  refine ⟨(claim_C3.1 sampleWire).2.2.2.1, ?_, ?_⟩
  · obtain ⟨room, -, -, -, -, -, -, -, hfac, -, -, -⟩ := claim_C3.2 editState sampleResponse
    exact hfac ["WiFi", "Mini Bar"] rfl
  · obtain ⟨room, -, -, -, -, -, -, -, -, -, -, hpdf⟩ := claim_C3.2 editState sampleResponse
    exact hpdf rfl

/-- Claim C4: a get-room failure with status 404 raises the not-found
toast and navigates to the listing route; a failure with any other
status raises the generic toast and performs no navigation. -/
theorem claim_C4 (s : DetailState) (r : ErrResponse) :
    (r.status = 404 →
      (fetchRoom_onOutcome s (.error ⟨some r⟩)).1.toasts =
        [{ kind := .error, msg := "Room not found." }] ∧
      (fetchRoom_onOutcome s (.error ⟨some r⟩)).1.navigateTo = some "/") ∧
    (r.status ≠ 404 →
      (fetchRoom_onOutcome s (.error ⟨some r⟩)).1.toasts =
        [{ kind := .error, msg := "An error occurred while fetching rooms." }] ∧
      (fetchRoom_onOutcome s (.error ⟨some r⟩)).1.navigateTo = none) := by
  constructor
  · intro h
    simp [fetchRoom_onOutcome, h]
  · intro h
    simp [fetchRoom_onOutcome, h]

/-- Witness for claim C4 at a 404 failure and at a 500 failure. -/
theorem claim_C4_witness :
    ((fetchRoom_onOutcome editState (.error ⟨some ⟨404, none⟩⟩)).1.navigateTo = some "/") ∧
    ((fetchRoom_onOutcome editState (.error ⟨some ⟨500, none⟩⟩)).1.navigateTo = none) :=
  ⟨((claim_C4 editState ⟨404, none⟩).1 rfl).2,
   ((claim_C4 editState ⟨500, none⟩).2 (by decide)).2⟩

/-- Claim C1: after a successful create response whose room carries an
id, and after a successful update response whose room carries an id
(the id the client updated), the outcome handling issues exactly one
follow-up POST /rooms/(id)/pdf request for that id and nothing else;
after a failed save it issues no request at all. -/
theorem claim_C1 (room : Room) (s : DetailState) :
    (∀ (r : RoomResponse) (i : String), r.id = some i → i ≠ "" →
      (handleCreateRoom_onOutcome room s (.ok r)).1.requests =
        [{ method := .POST, url := "/rooms/" ++ i ++ "/pdf", body := [] }]) ∧
    (∀ e, (handleCreateRoom_onOutcome room s (.error e)).1.requests = []) ∧
    (∀ (r : RoomResponse) (i : String), r.id = some i → room.id = r.id → i ≠ "" →
      (handleUpdateRoom_onOutcome room s (.ok r)).1.requests =
        [{ method := .POST, url := "/rooms/" ++ i ++ "/pdf", body := [] }]) ∧
    (∀ e, (handleUpdateRoom_onOutcome room s (.error e)).1.requests = []) := by
  have hne : ∀ i : String, i ≠ "" → i.isEmpty = false := by
    intro i hi
    cases hb : i.isEmpty
    · rfl
    · exact absurd ((String.isEmpty_iff i).mp hb) hi
  refine ⟨?_, ?_, ?_, ?_⟩
  · intro r i hid hi
    simp [handleCreateRoom_onOutcome, jsTruthyStr, hid, hne i hi,
      handlePDFGeneration_start]
  · intro e
    simp [handleCreateRoom_onOutcome]
  · intro r i hid hroom hi
    simp [handleUpdateRoom_onOutcome, jsTruthyStr, hroom, hid, hne i hi,
      handlePDFGeneration_start]
  · intro e
    simp [handleUpdateRoom_onOutcome]

/-- Witness for claim C1: the saved room "7", a successful create and a
successful update response for it. -/
theorem claim_C1_witness :
    (handleCreateRoom_onOutcome draftRoom noImageState (.ok sampleResponse)).1.requests =
      [{ method := .POST, url := "/rooms/7/pdf", body := [] }] ∧
    (handleUpdateRoom_onOutcome savedRoom editState (.ok sampleResponse)).1.requests =
      [{ method := .POST, url := "/rooms/7/pdf", body := [] }] :=
  ⟨(claim_C1 draftRoom noImageState).1 sampleResponse "7" rfl (by decide),
   (claim_C1 savedRoom editState).2.2.1 sampleResponse "7" rfl rfl (by decide)⟩

/-- Claim C6: the failure handling of create and update leaves the local
draft — the `room` fields and the `facilities` list — exactly as they
were when the request was issued; no error clears unsaved form state. -/
theorem claim_C6 (room : Room) (s : DetailState) (e : AxiosError) :
    ((handleCreateRoom_onOutcome room s (.error e)).2.room = s.room ∧
     (handleCreateRoom_onOutcome room s (.error e)).2.facilities = s.facilities) ∧
    ((handleUpdateRoom_onOutcome room s (.error e)).2.room = s.room ∧
     (handleUpdateRoom_onOutcome room s (.error e)).2.facilities = s.facilities) := by
  refine ⟨⟨?_, ?_⟩, ⟨?_, ?_⟩⟩ <;> simp [handleCreateRoom_onOutcome, handleUpdateRoom_onOutcome]

/-- Claim C7: whenever the update handler submits, the PUT body holds
exactly the fields title, description and facilities, in that order, and
never an image entry — regardless of any selected image file. -/
theorem claim_C7 (s : DetailState) (room : Room) (h : s.room = some room) :
    ∃ req, handleUpdateRoom_submit s = some req ∧
      req.body.map Prod.fst = ["title", "description", "facilities"] ∧
      ∀ v, ("image", v) ∉ req.body := by
  refine ⟨_, by rw [handleUpdateRoom_submit, h], ?_, ?_⟩
  · rfl
  · intro v hv
    simp [updateFormData] at hv

/-- Witness for claim C7 on the edit-form state (which even has an image
file selected to show it is ignored). -/
theorem claim_C7_witness :
    ∃ req,
      handleUpdateRoom_submit
        { room := some savedRoom, facilities := ["WiFi"], loading := false,
          pdfPath := "", imageFile := some "new.jpg" } = some req ∧
      req.body.map Prod.fst = ["title", "description", "facilities"] ∧
      ∀ v, ("image", v) ∉ req.body :=
  claim_C7
    { room := some savedRoom, facilities := ["WiFi"], loading := false,
      pdfPath := "", imageFile := some "new.jpg" } savedRoom rfl

/-- A create request body carries a supplied image file: some FormData
entry is the key "image" paired with a file value. -/
def hasSuppliedImageFile (req : Request) : Prop :=
  ∃ f, ("image", FormValue.file f) ∈ req.body

/-- Counterexample to claim C5: with no image file selected the create
handler still submits, and the submitted body's image entry is the
empty-string placeholder, not a supplied image file. -/
theorem claim_C5_counterexample :
    handleCreateRoom_submit noImageState =
      some { method := .POST, url := "/rooms",
             body := createFormData draftRoom ["WiFi"] none } ∧
    ¬ hasSuppliedImageFile
        { method := .POST, url := "/rooms",
          body := createFormData draftRoom ["WiFi"] none } := by
  constructor
  · rfl
  · rintro ⟨f, hf⟩
    simp [createFormData, draftRoom] at hf

/-- Claim C5 as amended: every submitted create request contains an
"image" entry; that entry is the selected file when one is present and
the empty-string placeholder otherwise — presence of an actual image is
not enforced by the client. -/
theorem claim_C5_amended (s : DetailState) (room : Room) (h : s.room = some room) :
    ∃ req, handleCreateRoom_submit s = some req ∧
      ((∃ f, s.imageFile = some f ∧ ("image", FormValue.file f) ∈ req.body) ∨
       (s.imageFile = none ∧ ("image", FormValue.str "") ∈ req.body)) := by
  refine ⟨_, by rw [handleCreateRoom_submit, h], ?_⟩
  cases hf : s.imageFile with
  | none =>
      right
      refine ⟨rfl, ?_⟩
      simp [createFormData, hf]
  | some f =>
      left
      refine ⟨f, rfl, ?_⟩
      simp [createFormData, hf]

/-- Witness for the amended claim C5 at a concrete state with a selected
image file. -/
theorem claim_C5_amended_witness :
    ∃ req,
      handleCreateRoom_submit
        { room := some draftRoom, facilities := ["WiFi"], loading := false,
          pdfPath := "", imageFile := some "room.jpg" } = some req ∧
      ((∃ f,
          ({ room := some draftRoom, facilities := ["WiFi"], loading := false,
             pdfPath := "", imageFile := some "room.jpg" } : DetailState).imageFile = some f ∧
          ("image", FormValue.file f) ∈ req.body) ∨
       (({ room := some draftRoom, facilities := ["WiFi"], loading := false,
           pdfPath := "", imageFile := some "room.jpg" } : DetailState).imageFile = none ∧
        ("image", FormValue.str "") ∈ req.body)) :=
  claim_C5_amended
    { room := some draftRoom, facilities := ["WiFi"], loading := false,
      pdfPath := "", imageFile := some "room.jpg" } draftRoom rfl

/-- Claim C8: for every failed request of any of the six operations the
catch handler issues no further request and raises exactly one
user-visible notification. -/
theorem claim_C8 (ls : ListingState) (s : DetailState) (room : Room) (e : AxiosError) :
    ((fetchRooms_onOutcome ls (.error e)).1.requests = [] ∧
     (fetchRooms_onOutcome ls (.error e)).1.toasts.length = 1) ∧
    ((fetchRoom_onOutcome s (.error e)).1.requests = [] ∧
     (fetchRoom_onOutcome s (.error e)).1.toasts.length = 1) ∧
    ((handleCreateRoom_onOutcome room s (.error e)).1.requests = [] ∧
     (handleCreateRoom_onOutcome room s (.error e)).1.toasts.length = 1) ∧
    ((handleUpdateRoom_onOutcome room s (.error e)).1.requests = [] ∧
     (handleUpdateRoom_onOutcome room s (.error e)).1.toasts.length = 1) ∧
    ((handlePDFGeneration_onOutcome s (.error e)).1.requests = [] ∧
     (handlePDFGeneration_onOutcome s (.error e)).1.toasts.length = 1) ∧
    ((handleDeleteRoom_onOutcome s (.error e)).1.requests = [] ∧
     (handleDeleteRoom_onOutcome s (.error e)).1.toasts.length = 1) := by
  obtain ⟨_ | r⟩ := e
  · refine ⟨⟨rfl, rfl⟩, ⟨rfl, rfl⟩, ⟨rfl, rfl⟩, ⟨rfl, rfl⟩, ⟨rfl, rfl⟩, ⟨rfl, rfl⟩⟩
  · refine ⟨⟨rfl, rfl⟩, ?_, ⟨rfl, rfl⟩, ⟨rfl, rfl⟩, ⟨rfl, rfl⟩, ⟨rfl, rfl⟩⟩
    by_cases h404 : r.status = 404 <;> simp [fetchRoom_onOutcome, h404]

/-- Every running index reached is at least the start index, so a target
index below the start matches no element and the filter keeps the list. -/
theorem filterIndexNe_of_lt (index : Nat) (l : List String) (n : Nat)
    (h : index < n) : filterIndexNe index l n = l := by
  induction l generalizing n with
  | nil => rfl
  | cons x xs ih =>
      have hne : n ≠ index := by omega
      rw [filterIndexNe, if_pos hne, ih (n + 1) (by omega)]

/-- Filtering out running index `n + k` from a traversal starting at `n`
erases exactly position `k`. -/
theorem filterIndexNe_eq_eraseIdx (l : List String) (k n : Nat) :
    filterIndexNe (n + k) l n = l.eraseIdx k := by
  induction l generalizing n k with
  | nil => cases k <;> rfl
  | cons x xs ih =>
      cases k with
      | zero =>
          rw [filterIndexNe, if_neg (by omega)]
          exact filterIndexNe_of_lt n xs (n + 1) (by omega)
      | succ j =>
          rw [filterIndexNe, if_pos (by omega), List.eraseIdx]
          have hidx : n + (j + 1) = (n + 1) + j := by omega
          rw [hidx, ih j (n + 1)]

/-- At most one element carries the filtered-out index, so the filter
drops at most one element. -/
theorem filterIndexNe_length (index : Nat) (l : List String) (n : Nat) :
    l.length - 1 ≤ (filterIndexNe index l n).length := by
  induction l generalizing n with
  | nil => simp [filterIndexNe]
  | cons x xs ih =>
      by_cases h : n = index
      · rw [filterIndexNe, if_neg (by omega),
          filterIndexNe_of_lt index xs (n + 1) (by omega)]
        simp
      · rw [filterIndexNe, if_pos h]
        have := ih (n + 1)
        simp only [List.length_cons]
        omega

/-- Claim C9: on a list of length at most one, facility removal is the
identity; on a longer list with a valid index it erases exactly that
position, keeping the order of the rest; on a longer list it never
returns the empty list. -/
theorem claim_C9 (prev : List String) (index : Nat) :
    (prev.length ≤ 1 → handleFacilityRemoval index prev = prev) ∧
    (prev.length > 1 → index < prev.length →
      handleFacilityRemoval index prev = prev.eraseIdx index) ∧
    (prev.length > 1 → handleFacilityRemoval index prev ≠ []) := by
  refine ⟨?_, ?_, ?_⟩
  · intro h
    rw [handleFacilityRemoval, if_neg (by omega)]
  · intro h _
    rw [handleFacilityRemoval, if_pos h]
    have := filterIndexNe_eq_eraseIdx prev index 0
    rwa [Nat.zero_add] at this
  · intro h
    rw [handleFacilityRemoval, if_pos h]
    have hlen := filterIndexNe_length index prev 0
    intro hnil
    rw [hnil] at hlen
    simp at hlen
    omega

/-- Witness for claim C9: removal at a valid index of a three-element
list, and removal from a singleton. -/
theorem claim_C9_witness :
    handleFacilityRemoval 1 ["WiFi", "Mini Bar", "Safe"] = ["WiFi", "Safe"] ∧
    handleFacilityRemoval 0 ["WiFi"] = ["WiFi"] ∧
    handleFacilityRemoval 5 ["WiFi", "Mini Bar"] ≠ [] := by
  refine ⟨?_, ?_, ?_⟩
  · have h := (claim_C9 ["WiFi", "Mini Bar", "Safe"] 1).2.1 (by decide) (by decide)
    rw [h]
    rfl
  · exact (claim_C9 ["WiFi"] 0).1 (by decide)
  · exact (claim_C9 ["WiFi", "Mini Bar"] 5).2.2 (by decide)

/-- Claim C10: a successful list response sets the rows to the per-item
translation of `response.data.data` when that field is an array and to
the empty list otherwise, while `next_page`, `prev_page` and `page_size`
are taken from the response either way. -/
theorem claim_C10 (s : ListingState) (resp : ListResponse) :
    (∀ items, resp.data = .arr items →
      (fetchRooms_onOutcome s (.ok resp)).2.rooms = items.map translateListItem) ∧
    (resp.data = .notArray → (fetchRooms_onOutcome s (.ok resp)).2.rooms = []) ∧
    (fetchRooms_onOutcome s (.ok resp)).2.nextPage = resp.next_page ∧
    (fetchRooms_onOutcome s (.ok resp)).2.prevPage = resp.prev_page ∧
    (fetchRooms_onOutcome s (.ok resp)).2.pageSize = resp.page_size := by
  refine ⟨?_, ?_, rfl, rfl, rfl⟩
  · intro items hd
    simp [fetchRooms_onOutcome, hd]
  · intro hd
    simp [fetchRooms_onOutcome, hd]

/-- Witness for claim C10 at a concrete array response and a concrete
non-array response. -/
theorem claim_C10_witness :
    (fetchRooms_onOutcome ⟨[], 20, none, none⟩
        (.ok ⟨.arr [sampleWire], some 2, none, 20⟩)).2.rooms =
      [translateListItem sampleWire] ∧
    (fetchRooms_onOutcome ⟨[], 20, none, none⟩
        (.ok ⟨.notArray, some 2, none, 20⟩)).2.rooms = [] ∧
    (fetchRooms_onOutcome ⟨[], 20, none, none⟩
        (.ok ⟨.notArray, some 2, none, 20⟩)).2.nextPage = some 2 :=
  ⟨(claim_C10 ⟨[], 20, none, none⟩ ⟨.arr [sampleWire], some 2, none, 20⟩).1 [sampleWire] rfl,
   (claim_C10 ⟨[], 20, none, none⟩ ⟨.notArray, some 2, none, 20⟩).2.1 rfl,
   (claim_C10 ⟨[], 20, none, none⟩ ⟨.notArray, some 2, none, 20⟩).2.2.1⟩
